import Mathlib

/-!
Verification of the capability-negotiation engine and the container
network-metadata deriver of the ECS agent.

The capability builder itself (the `capabilities()` method of `ecsAgent`)
is exercised here through a shallow embedding assembled from the design
description (version compatibility resolution, tri-state config
resolution, plugin discovery with failure isolation, and the per-feature
gating rules of the attribute builder), with attribute-name constants and
gating floors matching the capability test-suite of the repository.
The network-metadata deriver is embedded directly from
`agent/handlers/v3/container_metadata_handler.go`.
-/

namespace EcsAgent

/-- Enumerated Docker remote-API versions, as in `dockerclient.DockerVersion`
(`Version_1_17` … `Version_1_25`). -/
inductive DockerVersion
  | v1_17
  | v1_18
  | v1_19
  | v1_20
  | v1_21
  | v1_22
  | v1_23
  | v1_24
  | v1_25
deriving DecidableEq

/-- Numeric rank of a version token, giving the total order used by
minimum-version ("this version or later") gating. -/
def DockerVersion.ord : DockerVersion → Nat
  | .v1_17 => 17
  | .v1_18 => 18
  | .v1_19 => 19
  | .v1_20 => 20
  | .v1_21 => 21
  | .v1_22 => 22
  | .v1_23 => 23
  | .v1_24 => 24
  | .v1_25 => 25

/-- The wire representation of a version token ("1.17" … "1.25"). -/
def DockerVersion.str : DockerVersion → String
  | .v1_17 => "1.17"
  | .v1_18 => "1.18"
  | .v1_19 => "1.19"
  | .v1_20 => "1.20"
  | .v1_21 => "1.21"
  | .v1_22 => "1.22"
  | .v1_23 => "1.23"
  | .v1_24 => "1.24"
  | .v1_25 => "1.25"

/-- Modelled from the spec: `HasMinimumVersion` of the Version Compatibility
Resolver (the builder source `agent/app/capabilities.go` is not in the
snapshot) — a boolean predicate meaning some version in the runtime's
*supported* list meets or exceeds the feature's floor version. -/
def hasMinimumVersion (supported : List DockerVersion) (fl : DockerVersion) : Bool :=
  supported.any (fun v => decide (fl.ord ≤ v.ord))

/-- The three states of an operator-configurable flag, as in
`config.NotSet` / `config.ExplicitlyEnabled` / `config.ExplicitlyDisabled`. -/
inductive TriState
  | notSet
  | explicitlyEnabled
  | explicitlyDisabled
deriving DecidableEq

/-- A tri-state flag whose unset state defaults to false,
as in `config.BooleanDefaultFalse`. -/
structure BooleanDefaultFalse where
  value : TriState
deriving DecidableEq

/-- `BooleanDefaultFalse.Enabled()`: true only when explicitly enabled. -/
def BooleanDefaultFalse.enabled (b : BooleanDefaultFalse) : Bool :=
  match b.value with
  | TriState.explicitlyEnabled => true
  | _ => false

/-- A tri-state flag whose unset state defaults to true,
as in `config.BooleanDefaultTrue`. -/
structure BooleanDefaultTrue where
  value : TriState
deriving DecidableEq

/-- `BooleanDefaultTrue.Enabled()`: true unless explicitly disabled. -/
def BooleanDefaultTrue.enabled (b : BooleanDefaultTrue) : Bool :=
  match b.value with
  | TriState.explicitlyDisabled => false
  | _ => true

/-- Logging driver identifiers, as in `dockerclient.LoggingDriver`. -/
inductive LoggingDriver
  | jsonFile
  | syslog
  | journald
  | gelf
  | fluentd
  | awslogs
  | splunk
deriving DecidableEq

/-- Minimum remote-API version required for each logging driver,
as in `dockerclient.LoggingDriverMinimumVersion`. -/
def loggingDriverMinimumVersion : LoggingDriver → DockerVersion
  | .jsonFile => DockerVersion.v1_18
  | .syslog => DockerVersion.v1_18
  | .journald => DockerVersion.v1_19
  | .gelf => DockerVersion.v1_21
  | .fluentd => DockerVersion.v1_21
  | .awslogs => DockerVersion.v1_19
  | .splunk => DockerVersion.v1_24

/-- The slice of `config.Config` that the capability builder reads
(and, for `taskCPUMemLimit`, mutates). -/
structure Config where
  availableLoggingDrivers : List LoggingDriver
  privilegedDisabled : BooleanDefaultFalse
  selinuxCapable : BooleanDefaultFalse
  appArmorCapable : BooleanDefaultFalse
  taskENIEnabled : Bool
  awsVPCBlockInstanceMetadata : Bool
  taskIAMRoleEnabled : Bool
  taskIAMRoleEnabledForNetworkHost : Bool
  taskCPUMemLimit : BooleanDefaultTrue
  disableDockerHealthCheck : BooleanDefaultFalse
deriving DecidableEq

/-- The external collaborator answers consumed during one negotiation call:
the runtime's version lists (infallible), the CNI `Version` query, the
plugin-registry `Scan`, and the runtime's filtered plugin listing (each of
the last three independently fallible). -/
structure RuntimeEnv where
  supportedVersions : List DockerVersion
  knownVersions : List DockerVersion
  cniVersion : Except String String
  scanPlugins : Except String (List String)
  listPlugins : Except String (List String)

/-- Structured attribute names; `AttrName.render` below gives the
concrete wire strings asserted by the capability tests. -/
inductive AttrName
  | privilegedContainer
  | dockerRemoteApi (v : DockerVersion)
  | loggingDriver (d : LoggingDriver)
  | selinux
  | apparmor
  | taskENI
  | taskENIBlockInstanceMetadata
  | cniPluginVersion
  | taskIAMRole
  | taskIAMRoleNetworkHost
  | ecrAuth
  | executionRoleECRPull
  | executionRoleAWSLogs
  | privateRegistryAuthASM
  | secretEnvSSM
  | secretLogDriverSSM
  | ecrEndpoint
  | secretEnvASM
  | secretLogDriverASM
  | containerOrdering
  | fullTaskSync
  | envFilesS3
  | taskCPUMemLimit
  | containerHealthCheck
  | dockerVolumeDriver (plugin : String)
deriving DecidableEq

/-- Wire name of a logging driver. -/
def LoggingDriver.str : LoggingDriver → String
  | .jsonFile => "json-file"
  | .syslog => "syslog"
  | .journald => "journald"
  | .gelf => "gelf"
  | .fluentd => "fluentd"
  | .awslogs => "awslogs"
  | .splunk => "splunk"

/-- The concrete attribute-name strings advertised to the control plane
(`capabilityPrefix` is "com.amazonaws.ecs.capability.", `attributePrefix`
is "ecs.capability."), as asserted by the capability tests. -/
def AttrName.render : AttrName → String
  | .privilegedContainer => "com.amazonaws.ecs.capability.privileged-container"
  | .dockerRemoteApi v => "com.amazonaws.ecs.capability.docker-remote-api." ++ v.str
  | .loggingDriver d => "com.amazonaws.ecs.capability.logging-driver." ++ d.str
  | .selinux => "com.amazonaws.ecs.capability.selinux"
  | .apparmor => "com.amazonaws.ecs.capability.apparmor"
  | .taskENI => "ecs.capability.task-eni"
  | .taskENIBlockInstanceMetadata => "ecs.capability.task-eni-block-instance-metadata"
  | .cniPluginVersion => "ecs.capability.cni-plugin-version"
  | .taskIAMRole => "com.amazonaws.ecs.capability.task-iam-role"
  | .taskIAMRoleNetworkHost => "com.amazonaws.ecs.capability.task-iam-role-network-host"
  | .ecrAuth => "com.amazonaws.ecs.capability.ecr-auth"
  | .executionRoleECRPull => "ecs.capability.execution-role-ecr-pull"
  | .executionRoleAWSLogs => "ecs.capability.execution-role-awslogs"
  | .privateRegistryAuthASM => "ecs.capability.private-registry-authentication.secretsmanager"
  | .secretEnvSSM => "ecs.capability.secrets.ssm.environment-variables"
  | .secretLogDriverSSM => "ecs.capability.secrets.ssm.bootstrap.log-driver"
  | .ecrEndpoint => "ecs.capability.ecr-endpoint"
  | .secretEnvASM => "ecs.capability.secrets.asm.environment-variables"
  | .secretLogDriverASM => "ecs.capability.secrets.asm.bootstrap.log-driver"
  | .containerOrdering => "ecs.capability.container-ordering"
  | .fullTaskSync => "ecs.capability.full-sync"
  | .envFilesS3 => "ecs.capability.env-files.s3"
  | .taskCPUMemLimit => "ecs.capability.task-cpu-mem-limit"
  | .containerHealthCheck => "ecs.capability.container-health-check"
  | .dockerVolumeDriver plugin => "ecs.capability.docker-volume-driver." ++ plugin

/-- A capability attribute: a name with an optional value
(as in `ecs.Attribute`). -/
structure Attr where
  name : AttrName
  value : Option String
deriving DecidableEq

/-- The pair returned by `capabilities()`: a possibly-nil attribute slice
and a possibly-nil error, mirroring the Go `([]*ecs.Attribute, error)`
return shape. -/
structure NegotiationOutcome where
  attributes : Option (List Attr)
  error : Option String
deriving DecidableEq

/-- Modelled from the spec: `EnableOnlyIf` of the Tri-State Config Resolver
(§4.2; the resolver source is not in the snapshot). If the flag is
explicitly-true but the predicate is false, this errors; if the flag is
unset and the predicate is false, it silently downgrades the flag to
explicitly-false and reports disabled; if the predicate is true it reports
the flag's own resolution. Returns the (possibly downgraded) flag to be
stored back into the shared configuration. -/
def enableOnlyIf (flag : BooleanDefaultTrue) (pred : Bool) :
    Except String (Bool × BooleanDefaultTrue) :=
  if pred then Except.ok (flag.enabled, flag)
  else
    match flag.value with
    | TriState.explicitlyEnabled =>
        Except.error ("explicitly enabled feature is unsupported by the runtime version")
    | TriState.notSet => Except.ok (false, ⟨TriState.explicitlyDisabled⟩)
    | TriState.explicitlyDisabled => Except.ok (false, flag)

/-- Group 1: privileged-container support, present unless the operator's
privileged-disabled flag is effectively true. -/
def privilegedAttrs (cfg : Config) : List Attr :=
  if cfg.privilegedDisabled.enabled then [] else [⟨AttrName.privilegedContainer, none⟩]

/-- Group 2: one remote-API attribute per entry of the runtime's
*supported* version list, unconditionally. -/
def remoteApiAttrs (env : RuntimeEnv) : List Attr :=
  env.supportedVersions.map (fun v => ⟨AttrName.dockerRemoteApi v, none⟩)

/-- Group 3: one attribute per configured logging driver whose required
minimum version appears in the *known* version list. -/
def loggingAttrs (cfg : Config) (env : RuntimeEnv) : List Attr :=
  (cfg.availableLoggingDrivers.filter
      (fun d => env.knownVersions.contains (loggingDriverMinimumVersion d))).map
    (fun d => ⟨AttrName.loggingDriver d, none⟩)

/-- Group 4: SELinux / AppArmor attributes, present iff their tri-state
flags resolve to true. -/
def securityAttrs (cfg : Config) : List Attr :=
  (if cfg.selinuxCapable.enabled then [⟨AttrName.selinux, none⟩] else []) ++
  (if cfg.appArmorCapable.enabled then [⟨AttrName.apparmor, none⟩] else [])

/-- Group 6: the CNI plugin-version attribute, attached as a value-bearing
attribute only when the CNI `Version` query succeeds. -/
def cniAttrs (env : RuntimeEnv) : List Attr :=
  match env.cniVersion with
  | Except.ok ver => [⟨AttrName.cniPluginVersion, some ver⟩]
  | Except.error _ => []

/-- Groups 5 and 6: the base ENI attribute iff task networking is enabled;
the CNI version query and the instance-metadata-block sub-attribute are
gated behind the same ENI enablement. -/
def eniAttrs (cfg : Config) (env : RuntimeEnv) : List Attr :=
  if cfg.taskENIEnabled then
    ⟨AttrName.taskENI, none⟩ ::
      (cniAttrs env ++
        (if cfg.awsVPCBlockInstanceMetadata
          then [⟨AttrName.taskENIBlockInstanceMetadata, none⟩] else []))
  else []

/-- Group 7: task IAM role attributes (ordinary and network-host variants),
each requiring its config flag plus the 1.19 version floor; an unmet floor
silently omits the attribute. -/
def iamAttrs (cfg : Config) (env : RuntimeEnv) : List Attr :=
  (if cfg.taskIAMRoleEnabled &&
      hasMinimumVersion env.supportedVersions DockerVersion.v1_19
    then [⟨AttrName.taskIAMRole, none⟩] else []) ++
  (if cfg.taskIAMRoleEnabledForNetworkHost &&
      hasMinimumVersion env.supportedVersions DockerVersion.v1_19
    then [⟨AttrName.taskIAMRoleNetworkHost, none⟩] else [])

/-- Group 8: unconditional build-level capabilities. -/
def executionRoleAttrs : List Attr :=
  [⟨AttrName.ecrAuth, none⟩,
   ⟨AttrName.executionRoleECRPull, none⟩,
   ⟨AttrName.executionRoleAWSLogs, none⟩,
   ⟨AttrName.privateRegistryAuthASM, none⟩,
   ⟨AttrName.secretEnvSSM, none⟩,
   ⟨AttrName.secretLogDriverSSM, none⟩,
   ⟨AttrName.ecrEndpoint, none⟩,
   ⟨AttrName.secretEnvASM, none⟩,
   ⟨AttrName.secretLogDriverASM, none⟩,
   ⟨AttrName.containerOrdering, none⟩,
   ⟨AttrName.fullTaskSync, none⟩,
   ⟨AttrName.envFilesS3, none⟩]

/-- Group 10: container health check, present iff the 1.24 floor is met and
the disable flag does not resolve to true. -/
def healthAttrs (cfg : Config) (env : RuntimeEnv) : List Attr :=
  if hasMinimumVersion env.supportedVersions DockerVersion.v1_24 &&
      !cfg.disableDockerHealthCheck.enabled
    then [⟨AttrName.containerHealthCheck, none⟩] else []

/-- Modelled from the spec: the Plugin Discovery Adapter (§4.3; its source
is not in the snapshot). The registry `Scan` and the runtime's filtered
plugin listing are two independent discovery calls; on failure of either
the adapter degrades to the built-in default alone instead of propagating
the error. -/
def discoveredVolumeDrivers (env : RuntimeEnv) : List String :=
  match env.scanPlugins, env.listPlugins with
  | Except.ok scanned, Except.ok listed => scanned ++ listed
  | _, _ => []

/-- Group 11: volume-driver attributes — the built-in "local" driver always,
plus one attribute per successfully discovered plugin name. -/
def volumeAttrs (env : RuntimeEnv) : List Attr :=
  ⟨AttrName.dockerVolumeDriver ("local"), none⟩ ::
    (discoveredVolumeDrivers env).map (fun p => ⟨AttrName.dockerVolumeDriver p, none⟩)

/-- The full ordered attribute list of a successful negotiation, given the
already-resolved enablement `en` of the task CPU/memory resource limit. -/
def okAttributes (cfg : Config) (env : RuntimeEnv) (en : Bool) : List Attr :=
  privilegedAttrs cfg ++ remoteApiAttrs env ++ loggingAttrs cfg env ++
    securityAttrs cfg ++ eniAttrs cfg env ++ iamAttrs cfg env ++
    executionRoleAttrs ++
    (if en then [⟨AttrName.taskCPUMemLimit, none⟩] else []) ++
    healthAttrs cfg env ++ volumeAttrs env

/-- Modelled from the spec: the Capability Attribute Builder
(`ecsAgent.capabilities()`, whose source is not in the snapshot — only its
test-suite is). The task CPU/memory resource-limit gate (`enableOnlyIf`
against the 1.22 floor) is the single fatal path: on its error the call
returns a nil attribute list with the error and leaves the configuration
untouched; otherwise the full list is assembled and the (possibly
downgraded) resource-limit flag is stored back into the configuration. -/
def capabilities (cfg : Config) (env : RuntimeEnv) : NegotiationOutcome × Config :=
  match enableOnlyIf cfg.taskCPUMemLimit
      (hasMinimumVersion env.supportedVersions DockerVersion.v1_22) with
  | Except.error e => (⟨none, some e⟩, cfg)
  | Except.ok (en, flag) =>
      (⟨some (okAttributes cfg env en), none⟩, { cfg with taskCPUMemLimit := flag })

/-- One named network of a container's modern network settings
(`settings.Networks` map values); only `IPAddress` is consumed by the
metadata deriver, further address fields are ignored. -/
structure ContainerNetwork where
  ipAddress : String
  globalIPv6Address : String
deriving DecidableEq

/-- A container's runtime-reported network settings: the legacy flat
`IPAddress` plus the modern per-network mapping (`Networks`), modelled as
an association list. -/
structure NetworkSettings where
  ipAddress : String
  networks : List (String × ContainerNetwork)
deriving DecidableEq

/-- The container record exposed by the state store: possibly-absent
network settings and the host-config network-mode name
(`GetNetworkSettings()` / `GetNetworkMode()`). -/
structure DockerContainer where
  networkSettings : Option NetworkSettings
  networkMode : String
deriving DecidableEq

/-- The container/task state store, keyed by Docker container ID. -/
structure TaskEngineState where
  containers : List (String × DockerContainer)

/-- `state.ContainerByID(id)`: look up a container by its Docker ID. -/
def TaskEngineState.containerByID (state : TaskEngineState) (cid : String) :
    Option DockerContainer :=
  (state.containers.find? (fun p => p.1 == cid)).map Prod.snd

/-- The uniform per-container network record
(`containermetadata.Network`). -/
structure Network where
  networkMode : String
  ipv4Addresses : List String
deriving DecidableEq

/-- `GetContainerNetworkMetadata` of
`agent/handlers/v3/container_metadata_handler.go`: an unknown container or
absent network settings yield an error with a nil record list; a non-empty
modern `Networks` mapping yields one record per entry from that entry's
own name and `IPAddress`; otherwise a single legacy record is built from
the flat `IPAddress` and the host-config network mode. -/
def getContainerNetworkMetadata (containerID : String) (state : TaskEngineState) :
    Except String (List Network) :=
  match state.containerByID containerID with
  | none => Except.error ("Unable to find container " ++ containerID)
  | some dockerContainer =>
    match dockerContainer.networkSettings with
    | none =>
        Except.error ("Unable to generate network response for container " ++ containerID)
    | some settings =>
      if settings.networks.length > 0 then
        Except.ok (settings.networks.map
          (fun entry => { networkMode := entry.1, ipv4Addresses := [entry.2.ipAddress] }))
      else
        Except.ok [{ networkMode := dockerContainer.networkMode,
                     ipv4Addresses := [settings.ipAddress] }]

theorem mem_ite_singleton {α : Type} (a b : α) (c : Bool) :
    (a ∈ if c then [b] else ([] : List α)) ↔ (c = true ∧ a = b) := by
  cases c <;> simp

theorem mem_privilegedAttrs {cfg : Config} {a : Attr} :
    a ∈ privilegedAttrs cfg ↔
      (cfg.privilegedDisabled.enabled = false ∧ a = ⟨AttrName.privilegedContainer, none⟩) := by
  unfold privilegedAttrs
  cases h : cfg.privilegedDisabled.enabled <;> simp

theorem mem_remoteApiAttrs {env : RuntimeEnv} {a : Attr} :
    a ∈ remoteApiAttrs env ↔
      ∃ v, v ∈ env.supportedVersions ∧ a = ⟨AttrName.dockerRemoteApi v, none⟩ := by
  unfold remoteApiAttrs
  simp [List.mem_map, eq_comm]

theorem mem_loggingAttrs {cfg : Config} {env : RuntimeEnv} {a : Attr} :
    a ∈ loggingAttrs cfg env ↔
      ∃ d, d ∈ cfg.availableLoggingDrivers ∧
        env.knownVersions.contains (loggingDriverMinimumVersion d) = true ∧
        a = ⟨AttrName.loggingDriver d, none⟩ := by
  unfold loggingAttrs
  simp [List.mem_map, List.mem_filter, eq_comm, and_assoc]

theorem mem_securityAttrs {cfg : Config} {a : Attr} :
    a ∈ securityAttrs cfg ↔
      ((cfg.selinuxCapable.enabled = true ∧ a = ⟨AttrName.selinux, none⟩) ∨
       (cfg.appArmorCapable.enabled = true ∧ a = ⟨AttrName.apparmor, none⟩)) := by
  unfold securityAttrs
  simp [List.mem_append, mem_ite_singleton]

theorem mem_cniAttrs {env : RuntimeEnv} {a : Attr} :
    a ∈ cniAttrs env ↔
      ∃ ver, env.cniVersion = Except.ok ver ∧ a = ⟨AttrName.cniPluginVersion, some ver⟩ := by
  unfold cniAttrs
  cases h : env.cniVersion <;> simp [h]

theorem mem_eniAttrs {cfg : Config} {env : RuntimeEnv} {a : Attr} :
    a ∈ eniAttrs cfg env ↔
      (cfg.taskENIEnabled = true ∧
        (a = ⟨AttrName.taskENI, none⟩ ∨
         (∃ ver, env.cniVersion = Except.ok ver ∧ a = ⟨AttrName.cniPluginVersion, some ver⟩) ∨
         (cfg.awsVPCBlockInstanceMetadata = true ∧
           a = ⟨AttrName.taskENIBlockInstanceMetadata, none⟩))) := by
  unfold eniAttrs
  cases h : cfg.taskENIEnabled <;>
    simp [List.mem_append, mem_ite_singleton, mem_cniAttrs, or_assoc]

theorem mem_iamAttrs {cfg : Config} {env : RuntimeEnv} {a : Attr} :
    a ∈ iamAttrs cfg env ↔
      ((cfg.taskIAMRoleEnabled = true ∧
          hasMinimumVersion env.supportedVersions DockerVersion.v1_19 = true ∧
          a = ⟨AttrName.taskIAMRole, none⟩) ∨
       (cfg.taskIAMRoleEnabledForNetworkHost = true ∧
          hasMinimumVersion env.supportedVersions DockerVersion.v1_19 = true ∧
          a = ⟨AttrName.taskIAMRoleNetworkHost, none⟩)) := by
  unfold iamAttrs
  simp [List.mem_append, mem_ite_singleton, Bool.and_eq_true, and_assoc]

theorem mem_healthAttrs {cfg : Config} {env : RuntimeEnv} {a : Attr} :
    a ∈ healthAttrs cfg env ↔
      (hasMinimumVersion env.supportedVersions DockerVersion.v1_24 = true ∧
        cfg.disableDockerHealthCheck.enabled = false ∧
        a = ⟨AttrName.containerHealthCheck, none⟩) := by
  unfold healthAttrs
  rw [mem_ite_singleton]
  simp [Bool.and_eq_true, and_assoc]

theorem mem_volumeAttrs {env : RuntimeEnv} {a : Attr} :
    a ∈ volumeAttrs env ↔
      (a = ⟨AttrName.dockerVolumeDriver ("local"), none⟩ ∨
       ∃ p, p ∈ discoveredVolumeDrivers env ∧ a = ⟨AttrName.dockerVolumeDriver p, none⟩) := by
  unfold volumeAttrs
  simp [List.mem_map, eq_comm]

theorem mem_okAttributes {cfg : Config} {env : RuntimeEnv} {en : Bool} {a : Attr} :
    a ∈ okAttributes cfg env en ↔
      (a ∈ privilegedAttrs cfg ∨ a ∈ remoteApiAttrs env ∨ a ∈ loggingAttrs cfg env ∨
       a ∈ securityAttrs cfg ∨ a ∈ eniAttrs cfg env ∨ a ∈ iamAttrs cfg env ∨
       a ∈ executionRoleAttrs ∨ (en = true ∧ a = ⟨AttrName.taskCPUMemLimit, none⟩) ∨
       a ∈ healthAttrs cfg env ∨ a ∈ volumeAttrs env) := by
  unfold okAttributes
  simp [List.mem_append, mem_ite_singleton, or_assoc]

theorem enableOnlyIf_pred_true {flag : BooleanDefaultTrue} {pred : Bool} (h : pred = true) :
    enableOnlyIf flag pred = Except.ok (flag.enabled, flag) := by
  unfold enableOnlyIf
  rw [h]
  simp

theorem enableOnlyIf_error_iff {flag : BooleanDefaultTrue} {pred : Bool} :
    (∃ e, enableOnlyIf flag pred = Except.error e) ↔
      (flag.value = TriState.explicitlyEnabled ∧ pred = false) := by
  unfold enableOnlyIf
  cases pred <;> cases h : flag.value <;> simp [h, BooleanDefaultTrue.enabled]

theorem capabilities_of_enableOnlyIf_ok {cfg : Config} {env : RuntimeEnv}
    {en : Bool} {flag : BooleanDefaultTrue}
    (h : enableOnlyIf cfg.taskCPUMemLimit
        (hasMinimumVersion env.supportedVersions DockerVersion.v1_22) =
      Except.ok (en, flag)) :
    capabilities cfg env =
      (⟨some (okAttributes cfg env en), none⟩, { cfg with taskCPUMemLimit := flag }) := by
  unfold capabilities
  rw [h]

theorem capabilities_of_enableOnlyIf_error {cfg : Config} {env : RuntimeEnv} {e : String}
    (h : enableOnlyIf cfg.taskCPUMemLimit
        (hasMinimumVersion env.supportedVersions DockerVersion.v1_22) =
      Except.error e) :
    capabilities cfg env = (⟨none, some e⟩, cfg) := by
  unfold capabilities
  rw [h]

theorem capabilities_ok_inv {cfg : Config} {env : RuntimeEnv} {l : List Attr}
    (h : (capabilities cfg env).1.attributes = some l) :
    ∃ en flag,
      enableOnlyIf cfg.taskCPUMemLimit
          (hasMinimumVersion env.supportedVersions DockerVersion.v1_22) =
        Except.ok (en, flag) ∧
      l = okAttributes cfg env en ∧
      (capabilities cfg env).2 = { cfg with taskCPUMemLimit := flag } ∧
      (capabilities cfg env).1.error = none := by
  cases heoi : enableOnlyIf cfg.taskCPUMemLimit
      (hasMinimumVersion env.supportedVersions DockerVersion.v1_22) with
  | error e =>
      rw [capabilities_of_enableOnlyIf_error heoi] at h
      simp at h
  | ok p =>
      obtain ⟨en, flag⟩ := p
      rw [capabilities_of_enableOnlyIf_ok heoi] at h
      simp only [Option.some.injEq] at h
      exact ⟨en, flag, rfl, h.symm,
        by rw [capabilities_of_enableOnlyIf_ok heoi],
        by rw [capabilities_of_enableOnlyIf_ok heoi]⟩

/-- The per-feature gating rule for each attribute name: an attribute may
appear in a successful negotiation result only under its own gate (`en` is
the resolved enablement of the task CPU/memory resource limit). -/
def allowedSpec (cfg : Config) (env : RuntimeEnv) (en : Bool) : Attr → Prop
  | ⟨AttrName.privilegedContainer, v⟩ => v = none ∧ cfg.privilegedDisabled.enabled = false
  | ⟨AttrName.dockerRemoteApi ver, v⟩ => v = none ∧ ver ∈ env.supportedVersions
  | ⟨AttrName.loggingDriver d, v⟩ =>
      v = none ∧ d ∈ cfg.availableLoggingDrivers ∧
        env.knownVersions.contains (loggingDriverMinimumVersion d) = true
  | ⟨AttrName.selinux, v⟩ => v = none ∧ cfg.selinuxCapable.enabled = true
  | ⟨AttrName.apparmor, v⟩ => v = none ∧ cfg.appArmorCapable.enabled = true
  | ⟨AttrName.taskENI, v⟩ => v = none ∧ cfg.taskENIEnabled = true
  | ⟨AttrName.taskENIBlockInstanceMetadata, v⟩ =>
      v = none ∧ cfg.taskENIEnabled = true ∧ cfg.awsVPCBlockInstanceMetadata = true
  | ⟨AttrName.cniPluginVersion, v⟩ =>
      cfg.taskENIEnabled = true ∧ ∃ ver, env.cniVersion = Except.ok ver ∧ v = some ver
  | ⟨AttrName.taskIAMRole, v⟩ =>
      v = none ∧ cfg.taskIAMRoleEnabled = true ∧
        hasMinimumVersion env.supportedVersions DockerVersion.v1_19 = true
  | ⟨AttrName.taskIAMRoleNetworkHost, v⟩ =>
      v = none ∧ cfg.taskIAMRoleEnabledForNetworkHost = true ∧
        hasMinimumVersion env.supportedVersions DockerVersion.v1_19 = true
  | ⟨AttrName.taskCPUMemLimit, v⟩ => v = none ∧ en = true
  | ⟨AttrName.containerHealthCheck, v⟩ =>
      v = none ∧ hasMinimumVersion env.supportedVersions DockerVersion.v1_24 = true ∧
        cfg.disableDockerHealthCheck.enabled = false
  | ⟨AttrName.dockerVolumeDriver p, v⟩ =>
      v = none ∧ (p = "local" ∨ p ∈ discoveredVolumeDrivers env)
  | ⟨_, v⟩ => v = none

theorem allowedSpec_of_mem_okAttributes {cfg : Config} {env : RuntimeEnv} {en : Bool}
    {a : Attr} (ha : a ∈ okAttributes cfg env en) : allowedSpec cfg env en a := by
  rw [mem_okAttributes] at ha
  rcases ha with h | h | h | h | h | h | h | h | h | h
  · rw [mem_privilegedAttrs] at h
    obtain ⟨h1, rfl⟩ := h
    exact ⟨rfl, h1⟩
  · rw [mem_remoteApiAttrs] at h
    obtain ⟨v, hv, rfl⟩ := h
    exact ⟨rfl, hv⟩
  · rw [mem_loggingAttrs] at h
    obtain ⟨d, hd, hk, rfl⟩ := h
    exact ⟨rfl, hd, hk⟩
  · rw [mem_securityAttrs] at h
    rcases h with ⟨h1, rfl⟩ | ⟨h1, rfl⟩ <;> exact ⟨rfl, h1⟩
  · rw [mem_eniAttrs] at h
    obtain ⟨heni, h⟩ := h
    rcases h with rfl | ⟨ver, hver, rfl⟩ | ⟨hblock, rfl⟩
    · exact ⟨rfl, heni⟩
    · exact ⟨heni, ver, hver, rfl⟩
    · exact ⟨rfl, heni, hblock⟩
  · rw [mem_iamAttrs] at h
    rcases h with ⟨h1, h2, rfl⟩ | ⟨h1, h2, rfl⟩ <;> exact ⟨rfl, h1, h2⟩
  · simp only [executionRoleAttrs, List.mem_cons, List.not_mem_nil, or_false] at h
    rcases h with rfl | rfl | rfl | rfl | rfl | rfl | rfl | rfl | rfl | rfl | rfl | rfl <;> rfl
  · obtain ⟨hen, rfl⟩ := h
    exact ⟨rfl, hen⟩
  · rw [mem_healthAttrs] at h
    obtain ⟨h1, h2, rfl⟩ := h
    exact ⟨rfl, h1, h2⟩
  · rw [mem_volumeAttrs] at h
    rcases h with rfl | ⟨p, hp, rfl⟩
    · exact ⟨rfl, Or.inl rfl⟩
    · exact ⟨rfl, Or.inr hp⟩

/-- A baseline configuration: no logging drivers, every flag unset or off. -/
def cfg0 : Config :=
  ⟨[], ⟨TriState.notSet⟩, ⟨TriState.notSet⟩, ⟨TriState.notSet⟩, false, false, false, false,
    ⟨TriState.notSet⟩, ⟨TriState.notSet⟩⟩

/-- A baseline environment: runtime supports only version 1.19, CNI query
fails, both plugin-discovery calls succeed with empty results. -/
def env0 : RuntimeEnv :=
  ⟨[DockerVersion.v1_19], [DockerVersion.v1_19], Except.error ("cni unavailable"),
    Except.ok [], Except.ok []⟩

/-- `cfg0` with the task CPU/memory resource-limit flag explicitly enabled. -/
def cfgExplicitOn : Config := { cfg0 with taskCPUMemLimit := ⟨TriState.explicitlyEnabled⟩ }

/-- C1: when the task CPU/memory resource-limit flag is explicitly true and
no supported runtime version meets the 1.22 floor, the whole negotiation
call returns a nil attribute list together with a non-nil error. -/
theorem C1_explicit_resource_limit_unmet_is_fatal (cfg : Config) (env : RuntimeEnv)
    (hflag : cfg.taskCPUMemLimit.value = TriState.explicitlyEnabled)
    (hver : hasMinimumVersion env.supportedVersions DockerVersion.v1_22 = false) :
    (capabilities cfg env).1.attributes = none ∧
      ((capabilities cfg env).1.error).isSome = true := by
  obtain ⟨e, he⟩ := enableOnlyIf_error_iff.mpr ⟨hflag, hver⟩
  rw [capabilities_of_enableOnlyIf_error he]
  simp

theorem C1_witness :
    cfgExplicitOn.taskCPUMemLimit.value = TriState.explicitlyEnabled ∧
    hasMinimumVersion env0.supportedVersions DockerVersion.v1_22 = false ∧
    ((capabilities cfgExplicitOn env0).1.attributes = none ∧
      ((capabilities cfgExplicitOn env0).1.error).isSome = true) :=
  ⟨rfl, rfl, C1_explicit_resource_limit_unmet_is_fatal cfgExplicitOn env0 rfl rfl⟩

/-- C2: when the task CPU/memory resource-limit flag is unset and the 1.22
floor is unmet, negotiation succeeds with no error, the resource-limit
attribute is absent from the returned list, and the flag stored in the
returned configuration resolves to `Enabled() = false` (durable
downgrade). -/
theorem C2_unset_resource_limit_unmet_downgrades (cfg : Config) (env : RuntimeEnv)
    (hflag : cfg.taskCPUMemLimit.value = TriState.notSet)
    (hver : hasMinimumVersion env.supportedVersions DockerVersion.v1_22 = false) :
    (capabilities cfg env).1.error = none ∧
    (capabilities cfg env).1.attributes = some (okAttributes cfg env false) ∧
    (∀ a ∈ okAttributes cfg env false, a.name ≠ AttrName.taskCPUMemLimit) ∧
    ((capabilities cfg env).2.taskCPUMemLimit).enabled = false := by
  have he : enableOnlyIf cfg.taskCPUMemLimit
      (hasMinimumVersion env.supportedVersions DockerVersion.v1_22) =
      Except.ok (false, ⟨TriState.explicitlyDisabled⟩) := by
    unfold enableOnlyIf
    rw [hver, hflag]
    rfl
  rw [capabilities_of_enableOnlyIf_ok he]
  refine ⟨rfl, rfl, ?_, rfl⟩
  intro a ha hn
  have hspec := allowedSpec_of_mem_okAttributes ha
  obtain ⟨nm, v⟩ := a
  simp only at hn
  subst hn
  exact absurd hspec.2 (by simp)

theorem C2_witness :
    cfg0.taskCPUMemLimit.value = TriState.notSet ∧
    hasMinimumVersion env0.supportedVersions DockerVersion.v1_22 = false ∧
    ((capabilities cfg0 env0).1.error = none ∧
     (capabilities cfg0 env0).1.attributes = some (okAttributes cfg0 env0 false) ∧
     (∀ a ∈ okAttributes cfg0 env0 false, a.name ≠ AttrName.taskCPUMemLimit) ∧
     ((capabilities cfg0 env0).2.taskCPUMemLimit).enabled = false) :=
  ⟨rfl, rfl, C2_unset_resource_limit_unmet_downgrades cfg0 env0 rfl rfl⟩

/-- Whether an attribute is one of the remote-API version attributes. -/
def isRemoteApiAttr (a : Attr) : Bool :=
  match a.name with
  | AttrName.dockerRemoteApi _ => true
  | _ => false

theorem filter_remoteApi_okAttributes {cfg : Config} {env : RuntimeEnv} {en : Bool} :
    (okAttributes cfg env en).filter isRemoteApiAttr = remoteApiAttrs env := by
  have hpriv : (privilegedAttrs cfg).filter isRemoteApiAttr = [] := by
    rw [List.filter_eq_nil_iff]
    intro a ha
    rw [mem_privilegedAttrs] at ha
    obtain ⟨-, rfl⟩ := ha
    simp [isRemoteApiAttr]
  have hrem : (remoteApiAttrs env).filter isRemoteApiAttr = remoteApiAttrs env := by
    rw [List.filter_eq_self]
    intro a ha
    rw [mem_remoteApiAttrs] at ha
    obtain ⟨v, -, rfl⟩ := ha
    rfl
  have hlog : (loggingAttrs cfg env).filter isRemoteApiAttr = [] := by
    rw [List.filter_eq_nil_iff]
    intro a ha
    rw [mem_loggingAttrs] at ha
    obtain ⟨d, -, -, rfl⟩ := ha
    simp [isRemoteApiAttr]
  have hsec : (securityAttrs cfg).filter isRemoteApiAttr = [] := by
    rw [List.filter_eq_nil_iff]
    intro a ha
    rw [mem_securityAttrs] at ha
    rcases ha with ⟨-, rfl⟩ | ⟨-, rfl⟩ <;> simp [isRemoteApiAttr]
  have heni : (eniAttrs cfg env).filter isRemoteApiAttr = [] := by
    rw [List.filter_eq_nil_iff]
    intro a ha
    rw [mem_eniAttrs] at ha
    obtain ⟨-, ha⟩ := ha
    rcases ha with rfl | ⟨ver, -, rfl⟩ | ⟨-, rfl⟩ <;> simp [isRemoteApiAttr]
  have hiam : (iamAttrs cfg env).filter isRemoteApiAttr = [] := by
    rw [List.filter_eq_nil_iff]
    intro a ha
    rw [mem_iamAttrs] at ha
    rcases ha with ⟨-, -, rfl⟩ | ⟨-, -, rfl⟩ <;> simp [isRemoteApiAttr]
  have hexe : executionRoleAttrs.filter isRemoteApiAttr = [] := rfl
  have hcpu : ∀ en' : Bool,
      (if en' then [(⟨AttrName.taskCPUMemLimit, none⟩ : Attr)] else []).filter
        isRemoteApiAttr = [] := by
    intro en'
    cases en' <;> rfl
  have hhea : (healthAttrs cfg env).filter isRemoteApiAttr = [] := by
    rw [List.filter_eq_nil_iff]
    intro a ha
    rw [mem_healthAttrs] at ha
    obtain ⟨-, -, rfl⟩ := ha
    simp [isRemoteApiAttr]
  have hvol : (volumeAttrs env).filter isRemoteApiAttr = [] := by
    rw [List.filter_eq_nil_iff]
    intro a ha
    rw [mem_volumeAttrs] at ha
    rcases ha with rfl | ⟨p, -, rfl⟩ <;> simp [isRemoteApiAttr]
  unfold okAttributes
  simp [List.filter_append, hpriv, hrem, hlog, hsec, heni, hiam, hexe, hcpu en, hhea, hvol]

/-- C3: a successful negotiation result contains exactly one remote-API
version attribute per member of the runtime-reported supported version
list — no more, no fewer; versions absent from the supported list (even
ones present in the known list) produce no remote-API attribute. -/
theorem C3_one_remote_api_attribute_per_supported_version (cfg : Config) (env : RuntimeEnv)
    (l : List Attr) (hl : (capabilities cfg env).1.attributes = some l) :
    l.filter isRemoteApiAttr =
      env.supportedVersions.map (fun v => Attr.mk (AttrName.dockerRemoteApi v) none) := by
  obtain ⟨en, flag, -, rfl, -, -⟩ := capabilities_ok_inv hl
  rw [filter_remoteApi_okAttributes]
  rfl

theorem C3_witness :
    (capabilities cfg0 env0).1.attributes = some (okAttributes cfg0 env0 false) ∧
    (okAttributes cfg0 env0 false).filter isRemoteApiAttr =
      env0.supportedVersions.map (fun v => Attr.mk (AttrName.dockerRemoteApi v) none) :=
  ⟨rfl, C3_one_remote_api_attribute_per_supported_version cfg0 env0
    (okAttributes cfg0 env0 false) rfl⟩

/-- C4: when ENI/task-networking support is disabled in the configuration,
the instance-metadata-block sub-attribute is absent from any successful
negotiation result, regardless of the metadata-block flag's own value; and
in general the sub-attribute appears only when the parent ENI attribute is
present. -/
theorem C4_block_instance_metadata_requires_task_eni (cfg : Config) (env : RuntimeEnv)
    (l : List Attr) (hl : (capabilities cfg env).1.attributes = some l) :
    (cfg.taskENIEnabled = false →
      ∀ a ∈ l, a.name ≠ AttrName.taskENIBlockInstanceMetadata) ∧
    (Attr.mk AttrName.taskENIBlockInstanceMetadata none ∈ l →
      Attr.mk AttrName.taskENI none ∈ l) := by
  obtain ⟨en, flag, -, rfl, -, -⟩ := capabilities_ok_inv hl
  constructor
  · intro heni a ha hn
    have hspec := allowedSpec_of_mem_okAttributes ha
    obtain ⟨nm, v⟩ := a
    simp only at hn
    subst hn
    exact absurd hspec.2.1 (by simp [heni])
  · intro hb
    have hspec := allowedSpec_of_mem_okAttributes hb
    rw [mem_okAttributes]
    refine Or.inr (Or.inr (Or.inr (Or.inr (Or.inl ?_))))
    rw [mem_eniAttrs]
    exact ⟨hspec.2.1, Or.inl rfl⟩

/-- The ENI-disabled, metadata-block-enabled configuration of the
corresponding capability test. -/
def cfgBlockNoENI : Config := { cfg0 with awsVPCBlockInstanceMetadata := true }

theorem C4_witness :
    (capabilities cfgBlockNoENI env0).1.attributes =
      some (okAttributes cfgBlockNoENI env0 false) ∧
    cfgBlockNoENI.taskENIEnabled = false ∧
    ((cfgBlockNoENI.taskENIEnabled = false →
        ∀ a ∈ okAttributes cfgBlockNoENI env0 false,
          a.name ≠ AttrName.taskENIBlockInstanceMetadata) ∧
     (Attr.mk AttrName.taskENIBlockInstanceMetadata none ∈
        okAttributes cfgBlockNoENI env0 false →
      Attr.mk AttrName.taskENI none ∈ okAttributes cfgBlockNoENI env0 false)) :=
  ⟨rfl, rfl, C4_block_instance_metadata_requires_task_eni cfgBlockNoENI env0
    (okAttributes cfgBlockNoENI env0 false) rfl⟩

/-- C5: every negotiation call returns either a populated, non-nil
attribute list with a nil error, or a nil attribute list with a non-nil
error — never a populated list together with an error. -/
theorem C5_outcome_dichotomy (cfg : Config) (env : RuntimeEnv) :
    (∃ l, (capabilities cfg env).1.attributes = some l ∧ l ≠ [] ∧
      (capabilities cfg env).1.error = none) ∨
    ((capabilities cfg env).1.attributes = none ∧
      ∃ e, (capabilities cfg env).1.error = some e) := by
  cases heoi : enableOnlyIf cfg.taskCPUMemLimit
      (hasMinimumVersion env.supportedVersions DockerVersion.v1_22) with
  | error e =>
      right
      rw [capabilities_of_enableOnlyIf_error heoi]
      exact ⟨rfl, e, rfl⟩
  | ok p =>
      obtain ⟨en, flag⟩ := p
      left
      rw [capabilities_of_enableOnlyIf_ok heoi]
      refine ⟨okAttributes cfg env en, rfl, ?_, rfl⟩
      have hm : (Attr.mk AttrName.ecrAuth none) ∈ okAttributes cfg env en := by
        rw [mem_okAttributes]
        refine Or.inr (Or.inr (Or.inr (Or.inr (Or.inr (Or.inr (Or.inl ?_))))))
        simp [executionRoleAttrs]
      exact List.ne_nil_of_mem hm

/-- Whether an attribute is a volume-driver attribute. -/
def isVolumeDriverAttr (a : Attr) : Bool :=
  match a.name with
  | AttrName.dockerVolumeDriver _ => true
  | _ => false

/-- `env0` with a failing plugin-registry `Scan` call. -/
def envScanErr : RuntimeEnv := { env0 with scanPlugins := Except.error ("scan plugins failed") }

/-- C6 counterexample: an input whose plugin-registry `Scan` call fails but
whose resource-limit flag is explicitly enabled against an unmet 1.22
floor; negotiation does not succeed there (nil attributes, non-nil error),
so plugin-discovery failure does not by itself guarantee success. -/
theorem C6_counterexample :
    envScanErr.scanPlugins = Except.error ("scan plugins failed") ∧
    (capabilities cfgExplicitOn envScanErr).1.attributes = none ∧
    ((capabilities cfgExplicitOn envScanErr).1.error).isSome = true :=
  ⟨rfl, rfl, rfl⟩

theorem discoveredVolumeDrivers_eq_nil {env : RuntimeEnv}
    (hdisc : (∃ e, env.scanPlugins = Except.error e) ∨
      (∃ e, env.listPlugins = Except.error e)) :
    discoveredVolumeDrivers env = [] := by
  unfold discoveredVolumeDrivers
  rcases hdisc with ⟨e, he⟩ | ⟨e, he⟩
  · cases h2 : env.listPlugins <;> rw [he]
  · cases h1 : env.scanPlugins <;> rw [he]

/-- C6 (amended): when either plugin-discovery call fails and the task
resource-limit gate does not itself fail (the flag is not explicitly-true
against an unmet 1.22 floor), negotiation succeeds and every volume-driver
attribute present is exactly the built-in "local" default. -/
theorem C6_plugin_discovery_failure_degrades_to_default (cfg : Config) (env : RuntimeEnv)
    (hdisc : (∃ e, env.scanPlugins = Except.error e) ∨
      (∃ e, env.listPlugins = Except.error e))
    (hgate : ¬(cfg.taskCPUMemLimit.value = TriState.explicitlyEnabled ∧
        hasMinimumVersion env.supportedVersions DockerVersion.v1_22 = false)) :
    (capabilities cfg env).1.error = none ∧
    ((capabilities cfg env).1.attributes).isSome = true ∧
    ∀ a ∈ ((capabilities cfg env).1.attributes).getD [],
      isVolumeDriverAttr a = true →
        a = Attr.mk (AttrName.dockerVolumeDriver ("local")) none := by
  have hdrv := discoveredVolumeDrivers_eq_nil hdisc
  cases heoi : enableOnlyIf cfg.taskCPUMemLimit
      (hasMinimumVersion env.supportedVersions DockerVersion.v1_22) with
  | error e => exact absurd (enableOnlyIf_error_iff.mp ⟨e, heoi⟩) hgate
  | ok p =>
      obtain ⟨en, flag⟩ := p
      rw [capabilities_of_enableOnlyIf_ok heoi]
      refine ⟨rfl, rfl, ?_⟩
      intro a ha hv
      have hspec := allowedSpec_of_mem_okAttributes ha
      obtain ⟨nm, v⟩ := a
      cases nm <;> simp [isVolumeDriverAttr] at hv
      obtain ⟨rfl, hp⟩ := hspec
      rcases hp with rfl | hp
      · rfl
      · rw [hdrv] at hp
        simp at hp

theorem C6_witness :
    ((∃ e, envScanErr.scanPlugins = Except.error e) ∨
      (∃ e, envScanErr.listPlugins = Except.error e)) ∧
    ¬(cfg0.taskCPUMemLimit.value = TriState.explicitlyEnabled ∧
        hasMinimumVersion envScanErr.supportedVersions DockerVersion.v1_22 = false) ∧
    ((capabilities cfg0 envScanErr).1.error = none ∧
     ((capabilities cfg0 envScanErr).1.attributes).isSome = true ∧
     ∀ a ∈ ((capabilities cfg0 envScanErr).1.attributes).getD [],
       isVolumeDriverAttr a = true →
         a = Attr.mk (AttrName.dockerVolumeDriver ("local")) none) :=
  ⟨Or.inl ⟨"scan plugins failed", rfl⟩, by decide,
    C6_plugin_discovery_failure_degrades_to_default cfg0 envScanErr
      (Or.inl ⟨"scan plugins failed", rfl⟩) (by decide)⟩

/-- C7: in every successful negotiation result, each task IAM role
attribute (ordinary and network-host) is present iff its own config flag
is enabled and the supported versions meet the 1.19 floor; an unmet floor
silently omits the attribute, and neither stored flag is mutated by the
call. -/
theorem C7_task_iam_role_gating (cfg : Config) (env : RuntimeEnv)
    (l : List Attr) (hl : (capabilities cfg env).1.attributes = some l) :
    ((Attr.mk AttrName.taskIAMRole none ∈ l) ↔
      (cfg.taskIAMRoleEnabled = true ∧
        hasMinimumVersion env.supportedVersions DockerVersion.v1_19 = true)) ∧
    ((Attr.mk AttrName.taskIAMRoleNetworkHost none ∈ l) ↔
      (cfg.taskIAMRoleEnabledForNetworkHost = true ∧
        hasMinimumVersion env.supportedVersions DockerVersion.v1_19 = true)) ∧
    (capabilities cfg env).2.taskIAMRoleEnabled = cfg.taskIAMRoleEnabled ∧
    (capabilities cfg env).2.taskIAMRoleEnabledForNetworkHost =
      cfg.taskIAMRoleEnabledForNetworkHost := by
  obtain ⟨en, flag, heoi, rfl, hcfg, -⟩ := capabilities_ok_inv hl
  refine ⟨⟨?_, ?_⟩, ⟨?_, ?_⟩, ?_, ?_⟩
  · intro hm
    have hspec := allowedSpec_of_mem_okAttributes hm
    exact ⟨hspec.2.1, hspec.2.2⟩
  · rintro ⟨h1, h2⟩
    rw [mem_okAttributes]
    refine Or.inr (Or.inr (Or.inr (Or.inr (Or.inr (Or.inl ?_)))))
    rw [mem_iamAttrs]
    exact Or.inl ⟨h1, h2, rfl⟩
  · intro hm
    have hspec := allowedSpec_of_mem_okAttributes hm
    exact ⟨hspec.2.1, hspec.2.2⟩
  · rintro ⟨h1, h2⟩
    rw [mem_okAttributes]
    refine Or.inr (Or.inr (Or.inr (Or.inr (Or.inr (Or.inl ?_)))))
    rw [mem_iamAttrs]
    exact Or.inr ⟨h1, h2, rfl⟩
  · rw [hcfg]
  · rw [hcfg]

/-- `cfg0` with the ordinary task IAM role flag enabled. -/
def cfgIAM : Config := { cfg0 with taskIAMRoleEnabled := true }

theorem C7_witness :
    (capabilities cfgIAM env0).1.attributes = some (okAttributes cfgIAM env0 false) ∧
    (((Attr.mk AttrName.taskIAMRole none ∈ okAttributes cfgIAM env0 false) ↔
       (cfgIAM.taskIAMRoleEnabled = true ∧
         hasMinimumVersion env0.supportedVersions DockerVersion.v1_19 = true)) ∧
     ((Attr.mk AttrName.taskIAMRoleNetworkHost none ∈ okAttributes cfgIAM env0 false) ↔
       (cfgIAM.taskIAMRoleEnabledForNetworkHost = true ∧
         hasMinimumVersion env0.supportedVersions DockerVersion.v1_19 = true)) ∧
     (capabilities cfgIAM env0).2.taskIAMRoleEnabled = cfgIAM.taskIAMRoleEnabled ∧
     (capabilities cfgIAM env0).2.taskIAMRoleEnabledForNetworkHost =
       cfgIAM.taskIAMRoleEnabledForNetworkHost) :=
  ⟨rfl, C7_task_iam_role_gating cfgIAM env0 (okAttributes cfgIAM env0 false) rfl⟩

theorem enableOnlyIf_idem {flag flag' : BooleanDefaultTrue} {pred en : Bool}
    (h : enableOnlyIf flag pred = Except.ok (en, flag')) :
    enableOnlyIf flag' pred = Except.ok (en, flag') := by
  cases pred
  · cases hv : flag.value
    · have h1 : enableOnlyIf flag false = Except.ok (false, ⟨TriState.explicitlyDisabled⟩) := by
        unfold enableOnlyIf
        rw [hv]
        rfl
      rw [h1, Except.ok.injEq, Prod.mk.injEq] at h
      obtain ⟨rfl, rfl⟩ := h
      rfl
    · have h1 : enableOnlyIf flag false =
          Except.error ("explicitly enabled feature is unsupported by the runtime version") := by
        unfold enableOnlyIf
        rw [hv]
        rfl
      rw [h1] at h
      exact absurd h (by simp)
    · have h1 : enableOnlyIf flag false = Except.ok (false, flag) := by
        unfold enableOnlyIf
        rw [hv]
        rfl
      rw [h1, Except.ok.injEq, Prod.mk.injEq] at h
      obtain ⟨rfl, rfl⟩ := h
      unfold enableOnlyIf
      rw [hv]
      rfl
  · rw [enableOnlyIf_pred_true rfl, Except.ok.injEq, Prod.mk.injEq] at h
    obtain ⟨rfl, rfl⟩ := h
    exact enableOnlyIf_pred_true rfl

/-- C8: calling negotiation a second time on the configuration returned by
a successful first call, with unchanged external inputs, returns the very
same attribute list (hence the same attribute set under order-insensitive
containment equality), including when the first call performed the durable
downgrade of an unset resource-limit flag. -/
theorem C8_negotiation_idempotent (cfg : Config) (env : RuntimeEnv)
    (l : List Attr) (hl : (capabilities cfg env).1.attributes = some l) :
    (capabilities ((capabilities cfg env).2) env).1.attributes = some l := by
  obtain ⟨en, flag, heoi, rfl, hcfg, -⟩ := capabilities_ok_inv hl
  rw [hcfg]
  have h2 := enableOnlyIf_idem heoi
  rw [@capabilities_of_enableOnlyIf_ok { cfg with taskCPUMemLimit := flag } env en flag h2]
  rfl

theorem C8_witness :
    (capabilities cfg0 env0).1.attributes = some (okAttributes cfg0 env0 false) ∧
    (capabilities ((capabilities cfg0 env0).2) env0).1.attributes =
      some (okAttributes cfg0 env0 false) :=
  ⟨rfl, C8_negotiation_idempotent cfg0 env0 (okAttributes cfg0 env0 false) rfl⟩

/-- C9: for a container found in the state store, the network metadata is
derived as follows — a non-empty modern per-network mapping yields one
record per mapping entry using that entry's own name and address; an empty
mapping falls back to exactly one record built from the flat IPv4 address
and the host-config network-mode name; absent settings yield an error
(and hence no record list). -/
theorem C9_network_metadata_schema_cases (cid : String) (state : TaskEngineState)
    (c : DockerContainer) (s : NetworkSettings)
    (hc : state.containerByID cid = some c) :
    ((c.networkSettings = some s ∧ s.networks ≠ []) →
      getContainerNetworkMetadata cid state =
        Except.ok (s.networks.map
          (fun entry => Network.mk entry.1 [entry.2.ipAddress]))) ∧
    ((c.networkSettings = some s ∧ s.networks = []) →
      getContainerNetworkMetadata cid state =
        Except.ok [Network.mk c.networkMode [s.ipAddress]]) ∧
    (c.networkSettings = none →
      getContainerNetworkMetadata cid state =
        Except.error ("Unable to generate network response for container " ++ cid)) := by
  refine ⟨?_, ?_, ?_⟩
  · rintro ⟨hs, hne⟩
    simp only [getContainerNetworkMetadata, hc, hs]
    rw [if_pos (List.length_pos.mpr hne)]
  · rintro ⟨hs, hnil⟩
    simp only [getContainerNetworkMetadata, hc, hs, hnil]
    rfl
  · intro hn
    simp only [getContainerNetworkMetadata, hc, hn]

/-- Network settings exposing two named networks. -/
def settingsTwoNets : NetworkSettings :=
  ⟨"", [("net1", ⟨"10.0.0.2", ""⟩), ("net2", ⟨"10.0.0.3", ""⟩)]⟩

/-- A container carrying `settingsTwoNets`. -/
def contTwoNets : DockerContainer := ⟨some settingsTwoNets, "bridge"⟩

/-- A state store holding `contTwoNets` under ID "c1". -/
def stateTwoNets : TaskEngineState := ⟨[("c1", contTwoNets)]⟩

theorem C9_witness :
    stateTwoNets.containerByID ("c1") = some contTwoNets ∧
    (((contTwoNets.networkSettings = some settingsTwoNets ∧
        settingsTwoNets.networks ≠ []) →
      getContainerNetworkMetadata ("c1") stateTwoNets =
        Except.ok (settingsTwoNets.networks.map
          (fun entry => Network.mk entry.1 [entry.2.ipAddress]))) ∧
     ((contTwoNets.networkSettings = some settingsTwoNets ∧
        settingsTwoNets.networks = []) →
      getContainerNetworkMetadata ("c1") stateTwoNets =
        Except.ok [Network.mk contTwoNets.networkMode [settingsTwoNets.ipAddress]]) ∧
     (contTwoNets.networkSettings = none →
      getContainerNetworkMetadata ("c1") stateTwoNets =
        Except.error ("Unable to generate network response for container " ++ "c1"))) :=
  ⟨rfl, C9_network_metadata_schema_cases ("c1") stateTwoNets contTwoNets settingsTwoNets rfl⟩

/-- C10: every network record produced by a successful
`GetContainerNetworkMetadata` call carries exactly one IPv4 address
string — each modern entry contributes only its single `IPAddress` field,
and the legacy fallback record carries the flat `IPAddress` even when it
is the empty string. -/
theorem C10_each_record_single_ipv4 (cid : String) (state : TaskEngineState)
    (l : List Network) (h : getContainerNetworkMetadata cid state = Except.ok l) :
    ∀ n ∈ l, n.ipv4Addresses.length = 1 := by
  cases hf : state.containerByID cid with
  | none =>
      simp only [getContainerNetworkMetadata, hf] at h
      exact absurd h (by simp)
  | some c =>
      cases hs : c.networkSettings with
      | none =>
          simp only [getContainerNetworkMetadata, hf, hs] at h
          exact absurd h (by simp)
      | some s =>
          simp only [getContainerNetworkMetadata, hf, hs] at h
          by_cases hlen : s.networks.length > 0
          · rw [if_pos hlen, Except.ok.injEq] at h
            subst h
            intro n hn
            rw [List.mem_map] at hn
            obtain ⟨entry, -, rfl⟩ := hn
            rfl
          · rw [if_neg hlen, Except.ok.injEq] at h
            subst h
            intro n hn
            rw [List.mem_singleton] at hn
            subst hn
            rfl

/-- A container with legacy-only settings whose flat address is empty. -/
def contLegacyEmpty : DockerContainer := ⟨some ⟨"", []⟩, "bridge"⟩

/-- A state store holding `contLegacyEmpty` under ID "c2". -/
def stateLegacy : TaskEngineState := ⟨[("c2", contLegacyEmpty)]⟩

theorem C10_witness :
    getContainerNetworkMetadata ("c2") stateLegacy = Except.ok [Network.mk ("bridge") [""]] ∧
    ∀ n ∈ [Network.mk ("bridge") [""]], n.ipv4Addresses.length = 1 :=
  ⟨rfl, C10_each_record_single_ipv4 ("c2") stateLegacy [Network.mk ("bridge") [""]] rfl⟩

end EcsAgent
